import Mathlib

/-!
Shallow embedding of the per-output composition core and refresh-rate
scheduler of `android_frameworks_native` (SurfaceFlinger CompositionEngine
`Display` and `Scheduler`), together with theorems checking the
natural-language specification against the code.

Sources embedded:
* `Display.cpp` (`src/unnamed/part_000`): composition-strategy selection,
  color-transform / color-mode forwarding, disconnect, frame fences.
* `Scheduler.cpp` (`src/unnamed/part_001`): refresh-rate type calculation,
  timer-state handling, hardware-vsync state machine, resync debounce,
  connection registry.
* `RefreshRateConfigs.h` (`src/unnamed/part_002`): refresh-rate data model.

C++ machine values are modelled as `Nat`/`Int`; `float` arithmetic in
`calculateRefreshRateType` is modelled over `ℚ` (all quantities involved in
the claims are small integers and small ratios, where the comparisons with
the 0.05 margin agree between `float` and `ℚ`); fallible operations return
`Except`/`Option`.
-/

/-! ## Refresh-rate data model (`RefreshRateConfigs.h`) -/

/-- `RefreshRateConfigs::RefreshRateType`: which vsync rate to run at. -/
inductive RefreshRateType where
  | DEFAULT
  | PERFORMANCE
deriving DecidableEq, Repr

/-- `RefreshRateConfigs::RefreshRate`, restricted to the fields the embedded
code reads: `fps` (frames per second, `uint32_t`) and `vsyncPeriod`
(nanoseconds, `nsecs_t`). -/
structure RefreshRate where
  fps : Nat
  vsyncPeriod : Int
deriving DecidableEq, Repr

/-- `RefreshRateConfigs`: switching support flag, the refresh-rate map
(`std::map<RefreshRateType, RefreshRate>`, modelled as an association list
sorted by key as `std::map` iteration is), and the current refresh rate
(`getCurrentRefreshRate()`). -/
structure RefreshRateConfigs where
  refreshRateSwitchingSupported : Bool
  refreshRateMap : List (RefreshRateType × RefreshRate)
  currentRefreshRate : RefreshRateType × RefreshRate
deriving DecidableEq, Repr

/-- `RefreshRateConfigs::getRefreshRateFromType`: look the type up in the
refresh-rate map (the map holds one entry per type). -/
def RefreshRateConfigs.getRefreshRateFromType (cfg : RefreshRateConfigs)
    (t : RefreshRateType) : RefreshRate :=
  (cfg.refreshRateMap.lookup t).getD ⟨0, 0⟩

/-! ## Scheduler feature state (`Scheduler.h` fields used by `Scheduler.cpp`) -/

/-- `Scheduler::TimerState`. -/
inductive TimerState where
  | Reset
  | Expired
deriving DecidableEq, Repr

/-- `Scheduler::TouchState`. -/
inductive TouchState where
  | Active
  | Inactive
deriving DecidableEq, Repr

/-- `Scheduler::ContentDetectionState`. -/
inductive ContentDetectionState where
  | On
  | Off
deriving DecidableEq, Repr

/-- `Scheduler::ConfigEvent` (`RefreshRateConfigEvent`): `None` or `Changed`. -/
inductive ConfigEvent where
  | None
  | Changed
deriving DecidableEq, Repr

/-- `Scheduler::mFeatures`: the feature state aggregated under
`mFeatureStateLock`. -/
structure SchedulerFeatures where
  contentRefreshRate : Nat
  isHDRContent : Bool
  contentDetection : ContentDetectionState
  idleTimer : TimerState
  touch : TouchState
  displayPowerTimer : TimerState
  isDisplayPowerStateNormal : Bool
  refreshRateType : RefreshRateType
deriving DecidableEq, Repr

/-! ## `Scheduler::calculateRefreshRateType` -/

/-- `std::abs` on the rational model of a `float`. -/
def qabs (x : ℚ) : ℚ :=
  if x < 0 then -x else x

/-- `std::round` (round half away from zero) on the rational model of a
`float`, as an integer. -/
def qround (x : ℚ) : Int :=
  if 0 ≤ x then ⌊x + 1 / 2⌋ else -⌊-x + 1 / 2⌋

/-- The `MARGIN` constant (`0.05f`) of `calculateRefreshRateType`. -/
def MARGIN : ℚ := 5 / 100

/-- Distance `|lhs.second.fps - rate|` used by the `min_element` comparator in
`calculateRefreshRateType`. -/
def fpsDist (rate : ℚ) (r : RefreshRate) : ℚ :=
  qabs ((r.fps : ℚ) - rate)

/-- Scan of `std::min_element`: starting from a current best index and
distance, return the index of the first element of least distance. -/
def minElemIdxAux (rate : ℚ) : List (RefreshRateType × RefreshRate) →
    Nat × ℚ → Nat → Nat
  | [], best, _ => best.1
  | x :: xs, best, idx =>
      if fpsDist rate x.2 < best.2 then
        minElemIdxAux rate xs (idx, fpsDist rate x.2) (idx + 1)
      else
        minElemIdxAux rate xs best (idx + 1)

/-- Index of the first element of the map minimizing `|fps - rate|`
(`std::min_element` with the comparator of `calculateRefreshRateType`);
`0` on the empty list (where the C++ would return the end iterator). -/
def minElementIdx (rate : ℚ) : List (RefreshRateType × RefreshRate) → Nat
  | [] => 0
  | x :: xs => minElemIdxAux rate xs (0, fpsDist rate x.2) 1

/-- The `while (iter != cend())` scan of `calculateRefreshRateType`: walk the
remaining entries, returning the type of the first whose fps/content-rate
ratio is within `MARGIN` of an integer, or the current type if none is. -/
def scanForIntegerRatio (rate : ℚ) (curr : RefreshRateType) :
    List (RefreshRateType × RefreshRate) → RefreshRateType
  | [] => curr
  | x :: xs =>
      let ratio : ℚ := (x.2.fps : ℚ) / rate
      if qabs ((qround ratio : ℚ) - ratio) ≤ MARGIN then x.1
      else scanForIntegerRatio rate curr xs

/-- `Scheduler::calculateRefreshRateType`, lines 465-525 of `Scheduler.cpp`.
`forceHDR` is the `mForceHDRContentToDefaultRefreshRate` member. The ordered
rules: unsupported switching, HDR forcing, display-power, touch, idle timer,
content detection off, then the closest-fps / integer-ratio search over the
refresh-rate map. -/
def calculateRefreshRateType (cfg : RefreshRateConfigs) (forceHDR : Bool)
    (f : SchedulerFeatures) : RefreshRateType :=
  if !cfg.refreshRateSwitchingSupported then .DEFAULT
  else if forceHDR && f.isHDRContent then .DEFAULT
  else if !f.isDisplayPowerStateNormal || f.displayPowerTimer == .Reset then .PERFORMANCE
  else if f.touch == .Active then .PERFORMANCE
  else if f.idleTimer == .Expired then .DEFAULT
  else if f.contentDetection == .Off then .PERFORMANCE
  else
    let rate : ℚ := (f.contentRefreshRate : ℚ)
    let m := cfg.refreshRateMap
    let minIdx := minElementIdx rate m
    let currRefreshRateType :=
      match m.get? minIdx with
      | some p => p.1
      | none => .DEFAULT
    let ratio : ℚ := ((cfg.getRefreshRateFromType currRefreshRateType).fps : ℚ) / rate
    if qabs ((qround ratio : ℚ) - ratio) > MARGIN then
      scanForIntegerRatio rate currRefreshRateType (m.drop minIdx)
    else
      currRefreshRateType

/-- Concrete configuration of spec scenario 5: switching supported, rate map
with DEFAULT at 60 fps and PERFORMANCE at 90 fps. -/
def cfg6090 : RefreshRateConfigs :=
  { refreshRateSwitchingSupported := true
    refreshRateMap := [(.DEFAULT, ⟨60, 16666667⟩), (.PERFORMANCE, ⟨90, 11111111⟩)]
    currentRefreshRate := (.DEFAULT, ⟨60, 16666667⟩) }

/-- Concrete feature state of spec scenario 5: content at 45 fps, content
detection on, no earlier rule triggering. -/
def features45 : SchedulerFeatures :=
  { contentRefreshRate := 45
    isHDRContent := false
    contentDetection := .On
    idleTimer := .Reset
    touch := .Inactive
    displayPowerTimer := .Expired
    isDisplayPowerStateNormal := true
    refreshRateType := .DEFAULT }

/-! ## `Scheduler::handleTimerStateChanged` and the timer callbacks -/

/-- The template `Scheduler::handleTimerStateChanged<T>`, lines 443-463 of
`Scheduler.cpp`. `get`/`set` model the `T* currentState` pointer into
`mFeatures`; the result pairs the feature state after the call with the
`changeRefreshRate(newRefreshRateType, event)` invocation, if any. -/
def handleTimerStateChanged {α : Type} [DecidableEq α] (cfg : RefreshRateConfigs)
    (forceHDR : Bool) (get : SchedulerFeatures → α)
    (set : SchedulerFeatures → α → SchedulerFeatures)
    (f : SchedulerFeatures) (newState : α) (eventOnContentDetection : Bool) :
    SchedulerFeatures × Option (RefreshRateType × ConfigEvent) :=
  if get f = newState then (f, none)
  else
    let f1 := set f newState
    let newRefreshRateType := calculateRefreshRateType cfg forceHDR f1
    if f1.refreshRateType = newRefreshRateType then (f1, none)
    else
      let f2 := { f1 with refreshRateType := newRefreshRateType }
      let event : ConfigEvent :=
        if eventOnContentDetection = true ∧ f2.contentDetection = .On then .Changed else .None
      (f2, some (newRefreshRateType, event))

/-- `Scheduler::idleTimerCallback`: updates `mFeatures.idleTimer`,
`eventOnContentDetection = false`. -/
def idleTimerCallback (cfg : RefreshRateConfigs) (forceHDR : Bool)
    (f : SchedulerFeatures) (state : TimerState) :
    SchedulerFeatures × Option (RefreshRateType × ConfigEvent) :=
  handleTimerStateChanged cfg forceHDR (·.idleTimer)
    (fun f v => { f with idleTimer := v }) f state false

/-- `Scheduler::touchTimerCallback`: converts the timer state to a
`TouchState` (`Reset` means touch is active), updates `mFeatures.touch`,
`eventOnContentDetection = true`. -/
def touchTimerCallback (cfg : RefreshRateConfigs) (forceHDR : Bool)
    (f : SchedulerFeatures) (state : TimerState) :
    SchedulerFeatures × Option (RefreshRateType × ConfigEvent) :=
  let touch : TouchState := if state = .Reset then .Active else .Inactive
  handleTimerStateChanged cfg forceHDR (·.touch)
    (fun f v => { f with touch := v }) f touch true

/-- `Scheduler::displayPowerTimerCallback`: updates
`mFeatures.displayPowerTimer`, `eventOnContentDetection = true`. -/
def displayPowerTimerCallback (cfg : RefreshRateConfigs) (forceHDR : Bool)
    (f : SchedulerFeatures) (state : TimerState) :
    SchedulerFeatures × Option (RefreshRateType × ConfigEvent) :=
  handleTimerStateChanged cfg forceHDR (·.displayPowerTimer)
    (fun f v => { f with displayPowerTimer := v }) f state true

/-! ## Hardware-vsync state machine (`Scheduler.cpp` lines 206-296) -/

/-- `kIgnoreDelay = ms2ns(750)` from `Scheduler::resync`, in nanoseconds. -/
def kIgnoreDelay : Int := 750 * 1000000

/-- An invocation of `resyncToHardwareVsync(makeAvailable, period)`. -/
structure ResyncToHWCall where
  makeAvailable : Bool
  period : Int
deriving DecidableEq, Repr

/-- `Scheduler::resync`, lines 246-256: swap `mLastResyncTime` for `now`; if
more than `kIgnoreDelay` elapsed since the previous call, invoke
`resyncToHardwareVsync(false, currentVsyncPeriod)`. Returns the new
`mLastResyncTime` and the invocation, if any. -/
def resync (now lastResyncTime currentVsyncPeriod : Int) :
    Int × Option ResyncToHWCall :=
  if now - lastResyncTime > kIgnoreDelay then
    (now, some ⟨false, currentVsyncPeriod⟩)
  else
    (now, none)

/-- The scheduler state touched by the hardware-vsync operations:
`mHWVsyncAvailable`, `mPrimaryHWVsyncEnabled` (both guarded by
`mHWVsyncLock`), `mLastResyncTime`, and the DispSync period last set. -/
structure HWVsyncState where
  hwVsyncAvailable : Bool
  primaryHWVsyncEnabled : Bool
  lastResyncTime : Int
  dispSyncPeriod : Int
deriving DecidableEq, Repr

/-- `Scheduler::enableHardwareVsync`: begin the DispSync resync and turn
vsync on only when not already enabled and hardware vsync is available. -/
def enableHardwareVsync (s : HWVsyncState) : HWVsyncState :=
  if !s.primaryHWVsyncEnabled && s.hwVsyncAvailable then
    { s with primaryHWVsyncEnabled := true }
  else s

/-- `Scheduler::disableHardwareVsync`: turn vsync off if enabled; when
`makeUnavailable`, also mark hardware vsync unavailable. -/
def disableHardwareVsync (makeUnavailable : Bool) (s : HWVsyncState) :
    HWVsyncState :=
  let s1 := if s.primaryHWVsyncEnabled then { s with primaryHWVsyncEnabled := false } else s
  if makeUnavailable then { s1 with hwVsyncAvailable := false } else s1

/-- `Scheduler::setVsyncPeriod`: set the DispSync period and, if vsync is
not enabled, begin the resync and enable it (without consulting
`mHWVsyncAvailable`). -/
def setVsyncPeriod (period : Int) (s : HWVsyncState) : HWVsyncState :=
  let s1 := { s with dispSyncPeriod := period }
  if !s1.primaryHWVsyncEnabled then { s1 with primaryHWVsyncEnabled := true } else s1

/-- `Scheduler::resyncToHardwareVsync`: when `makeAvailable`, mark hardware
vsync available; otherwise abort if it is unavailable. Then abort on a
non-positive period, else `setVsyncPeriod(period)`. -/
def resyncToHardwareVsync (makeAvailable : Bool) (period : Int)
    (s : HWVsyncState) : HWVsyncState :=
  let s1 := if makeAvailable then { s with hwVsyncAvailable := true } else s
  if !makeAvailable && !s.hwVsyncAvailable then s1
  else if period ≤ 0 then s1
  else setVsyncPeriod period s1

/-- One call into the scheduler's hardware-vsync surface. The `Bool` of
`addResyncSample`/`addPresentFence` is the value DispSync would return for
that call (`addResyncSample(timestamp, periodFlushed)` /
`addPresentFence(fenceTime)`), an input of the model. -/
inductive VsyncOp where
  | enableHardwareVsync
  | disableHardwareVsync (makeUnavailable : Bool)
  | resyncToHardwareVsync (makeAvailable : Bool) (period : Int)
  | resync (now : Int) (currentVsyncPeriod : Int)
  | addResyncSample (dispSyncResult : Bool)
  | addPresentFence (dispSyncResult : Bool)
deriving DecidableEq, Repr

/-- One step of the hardware-vsync state machine, following the bodies of
the corresponding `Scheduler` members. `addResyncSample` forwards to
DispSync only while vsync is enabled (`needsHwVsync` stays false
otherwise); both sample operations then enable or disable hardware vsync
according to the DispSync result. -/
def stepVsync (s : HWVsyncState) : VsyncOp → HWVsyncState
  | .enableHardwareVsync => enableHardwareVsync s
  | .disableHardwareVsync makeUnavailable => disableHardwareVsync makeUnavailable s
  | .resyncToHardwareVsync makeAvailable period => resyncToHardwareVsync makeAvailable period s
  | .resync now currentVsyncPeriod =>
      let last := s.lastResyncTime
      let s1 := { s with lastResyncTime := now }
      if now - last > kIgnoreDelay then resyncToHardwareVsync false currentVsyncPeriod s1 else s1
  | .addResyncSample dispSyncResult =>
      let needsHwVsync := s.primaryHWVsyncEnabled && dispSyncResult
      if needsHwVsync then enableHardwareVsync s else disableHardwareVsync false s
  | .addPresentFence dispSyncResult =>
      if dispSyncResult then enableHardwareVsync s else disableHardwareVsync false s

/-- Run a sequence of hardware-vsync operations. -/
def runVsync (s : HWVsyncState) (ops : List VsyncOp) : HWVsyncState :=
  ops.foldl stepVsync s

/-- The hardware-vsync invariant: vsync is only enabled while it is
available. -/
def vsyncInvariant (s : HWVsyncState) : Prop :=
  s.primaryHWVsyncEnabled = true → s.hwVsyncAvailable = true

/-- Whether an operation is `resyncToHardwareVsync` with
`makeAvailable = true` (the only way `mHWVsyncAvailable` is ever set). -/
def opMakesAvailable : VsyncOp → Bool
  | .resyncToHardwareVsync true _ => true
  | _ => false

/-- Whether an operation is `resyncToHardwareVsync` with
`makeAvailable = true` and a positive period. -/
def opIsPositiveMakeAvailableResync : VsyncOp → Bool
  | .resyncToHardwareVsync true p => decide (0 < p)
  | _ => false

/-! ## Connection registry (`Scheduler.cpp` lines 48-54, 153-199) -/

/-- `Scheduler::Connection`: the event-thread connection and the owned
event thread, both modelled as opaque identifiers. -/
structure Connection where
  connection : Nat
  thread : Nat
deriving DecidableEq, Repr

/-- A default-constructed `Connection` (null pointers), produced by
`std::unordered_map::operator[]` on a missing key. -/
def defaultConnection : Connection := ⟨0, 0⟩

/-- `mConnections`: map from `ConnectionHandle` (its `id` field) to
`Connection`, modelled as an association list. -/
abbrev ConnectionMap : Type := List (Nat × Connection)

/-- `mConnections.count(handle)` of the `std::unordered_map` (0 or 1). -/
def connCount (m : ConnectionMap) (handle : Nat) : Nat :=
  if (List.lookup handle m).isSome then 1 else 0

/-- `mConnections[handle]` (`std::unordered_map::operator[]`): return the
mapped connection, inserting a default-constructed one when absent. -/
def connIndex (m : ConnectionMap) (handle : Nat) : Connection × ConnectionMap :=
  match List.lookup handle m with
  | some c => (c, m)
  | none => (defaultConnection, m ++ [(handle, defaultConnection)])

/-- A call forwarded to a connection's event thread (or, for
`createDisplayEventConnection`, the `createEventConnection` performed on
it). -/
inductive ForwardedCall where
  | createEventConnection (thread : Nat) (configChanged : Bool)
  | onHotplugReceived (thread : Nat) (displayId : Nat) (connected : Bool)
  | onScreenAcquired (thread : Nat)
  | onScreenReleased (thread : Nat)
  | onConfigChanged (thread : Nat) (displayId : Nat) (configId : Int)
  | dumpThread (thread : Nat)
  | setPhaseOffset (thread : Nat) (phaseOffset : Int)
deriving DecidableEq, Repr

/-- `Scheduler::createDisplayEventConnection`: on an invalid handle return
`nullptr` (`RETURN_IF_INVALID_HANDLE(handle, nullptr)`); otherwise create an
event connection on the handle's thread. -/
def createDisplayEventConnection (m : ConnectionMap) (handle : Nat)
    (configChanged : Bool) : Option ForwardedCall × ConnectionMap :=
  if connCount m handle = 0 then (none, m)
  else
    let (c, m1) := connIndex m handle
    (some (.createEventConnection c.thread configChanged), m1)

/-- `Scheduler::getEventThread`: `nullptr` on an invalid handle, else the
handle's thread. -/
def getEventThread (m : ConnectionMap) (handle : Nat) :
    Option Nat × ConnectionMap :=
  if connCount m handle = 0 then (none, m)
  else
    let (c, m1) := connIndex m handle
    (some c.thread, m1)

/-- `Scheduler::getEventConnection`: `nullptr` on an invalid handle, else
the handle's connection. -/
def getEventConnection (m : ConnectionMap) (handle : Nat) :
    Option Nat × ConnectionMap :=
  if connCount m handle = 0 then (none, m)
  else
    let (c, m1) := connIndex m handle
    (some c.connection, m1)

/-- `Scheduler::onHotplugReceived`: nothing on an invalid handle, else
forward to the handle's thread. -/
def onHotplugReceived (m : ConnectionMap) (handle displayId : Nat)
    (connected : Bool) : Option ForwardedCall × ConnectionMap :=
  if connCount m handle = 0 then (none, m)
  else
    let (c, m1) := connIndex m handle
    (some (.onHotplugReceived c.thread displayId connected), m1)

/-- `Scheduler::onScreenAcquired`. -/
def onScreenAcquired (m : ConnectionMap) (handle : Nat) :
    Option ForwardedCall × ConnectionMap :=
  if connCount m handle = 0 then (none, m)
  else
    let (c, m1) := connIndex m handle
    (some (.onScreenAcquired c.thread), m1)

/-- `Scheduler::onScreenReleased`. -/
def onScreenReleased (m : ConnectionMap) (handle : Nat) :
    Option ForwardedCall × ConnectionMap :=
  if connCount m handle = 0 then (none, m)
  else
    let (c, m1) := connIndex m handle
    (some (.onScreenReleased c.thread), m1)

/-- `Scheduler::onConfigChanged`. -/
def onConfigChanged (m : ConnectionMap) (handle displayId : Nat)
    (configId : Int) : Option ForwardedCall × ConnectionMap :=
  if connCount m handle = 0 then (none, m)
  else
    let (c, m1) := connIndex m handle
    (some (.onConfigChanged c.thread displayId configId), m1)

/-- `Scheduler::dump(ConnectionHandle, std::string&)`: this operation is
`const` and uses `mConnections.at(handle)` (no insertion). -/
def dumpConnection (m : ConnectionMap) (handle : Nat) :
    Option ForwardedCall × ConnectionMap :=
  if connCount m handle = 0 then (none, m)
  else
    ((List.lookup handle m).map fun c => .dumpThread c.thread, m)

/-- `Scheduler::setPhaseOffset`. -/
def setPhaseOffset (m : ConnectionMap) (handle : Nat) (phaseOffset : Int) :
    Option ForwardedCall × ConnectionMap :=
  if connCount m handle = 0 then (none, m)
  else
    let (c, m1) := connIndex m handle
    (some (.setPhaseOffset c.thread phaseOffset), m1)

/-! ## Display (`Display.cpp`, `src/unnamed/part_000`) -/

/-- One `OutputLayer` as seen by `Display.cpp`: the optional
hardware-composer layer handle (`getHwcLayer()`) and the per-layer
composition state `σ`, mutated only through the `OutputLayerOps`
interface. -/
structure OutputLayer (σ : Type) where
  hwcLayer : Option Nat
  state : σ
deriving DecidableEq, Repr

/-- The `OutputLayer` member functions `Display.cpp` calls. Their bodies
live in `OutputLayer.cpp`, outside the given sources, so the embedding is
parameterized over them: `requiresClientComposition`,
`applyDeviceCompositionTypeChange` (argument: the HWC composition type),
`prepareForDeviceLayerRequests`, and `applyDeviceLayerRequest` (argument:
the HWC layer request). -/
structure OutputLayerOps (σ : Type) where
  requiresClientComposition : σ → Bool
  applyDeviceCompositionTypeChange : σ → Nat → σ
  prepareForDeviceLayerRequests : σ → σ
  applyDeviceLayerRequest : σ → Nat → σ

/-- `HWComposer::DeviceRequestedChanges`: changed composition types and
layer requests keyed by hardware-composer layer handle, and the display
request bitset. -/
structure DeviceRequestedChanges where
  changedTypes : List (Nat × Nat)
  displayRequests : Nat
  layerRequests : List (Nat × Nat)
deriving DecidableEq, Repr

/-- The state of one `Display` (the fields of `Display` and of its
`Output::mState` that `Display.cpp` reads or writes): `mIsVirtual`, the
optional bound HWC display id `mId`, the ordered output-layer list
(`getOutputLayersOrderedByZ()`), and the output composition state fields
`usesClientComposition`, `usesDeviceComposition`, `flipClientTarget`,
the four color fields, and the color transform matrix (modelled as an
opaque `Nat`). -/
structure DisplayState (σ : Type) where
  mIsVirtual : Bool
  mId : Option Nat
  layers : List (OutputLayer σ)
  usesClientComposition : Bool
  usesDeviceComposition : Bool
  flipClientTarget : Bool
  colorMode : Nat
  dataspace : Nat
  renderIntent : Nat
  targetDataspace : Nat
  colorTransformMatrix : Nat
deriving DecidableEq, Repr

/-- `Display::anyLayersRequireClientComposition`: `std::any_of` over the
ordered output-layers. -/
def anyLayersRequireClientComposition {σ : Type} (ops : OutputLayerOps σ)
    (layers : List (OutputLayer σ)) : Bool :=
  layers.any fun l => ops.requiresClientComposition l.state

/-- `Display::allLayersRequireClientComposition`: `std::all_of` over the
ordered output-layers. -/
def allLayersRequireClientComposition {σ : Type} (ops : OutputLayerOps σ)
    (layers : List (OutputLayer σ)) : Bool :=
  layers.all fun l => ops.requiresClientComposition l.state

/-- `Display::applyChangedTypesToLayers`: nothing when the changed-type map
is empty; otherwise each layer with an HWC layer handle found in the map
gets `applyDeviceCompositionTypeChange` with the new type. -/
def applyChangedTypesToLayers {σ : Type} (ops : OutputLayerOps σ)
    (changedTypes : List (Nat × Nat)) (layers : List (OutputLayer σ)) :
    List (OutputLayer σ) :=
  if changedTypes.isEmpty then layers
  else
    layers.map fun l =>
      match l.hwcLayer with
      | none => l
      | some h =>
          match List.lookup h changedTypes with
          | some t => { l with state := ops.applyDeviceCompositionTypeChange l.state t }
          | none => l

/-- The `HWC2::DisplayRequest::FlipClientTarget` bit
(`HWC2_DISPLAY_REQUEST_FLIP_CLIENT_TARGET = 1 << 0`, from the HWC2 headers
outside the given sources). -/
def FlipClientTarget : Nat := 1

/-- `Display::applyDisplayRequests`: record the `FlipClientTarget` bit of
the display-request bitset (`WriteClientTargetToOutput` is ignored). -/
def applyDisplayRequests {σ : Type} (displayRequests : Nat)
    (d : DisplayState σ) : DisplayState σ :=
  { d with flipClientTarget := displayRequests.land FlipClientTarget != 0 }

/-- `Display::applyLayerRequestsToLayers`: every layer first gets
`prepareForDeviceLayerRequests`; each layer with an HWC layer handle found
in the request map then gets `applyDeviceLayerRequest`. -/
def applyLayerRequestsToLayers {σ : Type} (ops : OutputLayerOps σ)
    (layerRequests : List (Nat × Nat)) (layers : List (OutputLayer σ)) :
    List (OutputLayer σ) :=
  layers.map fun l =>
    let s := ops.prepareForDeviceLayerRequests l.state
    match l.hwcLayer with
    | none => { l with state := s }
    | some h =>
        match List.lookup h layerRequests with
        | some r => { l with state := ops.applyDeviceLayerRequest s r }
        | none => { l with state := s }

/-- `Display::chooseCompositionStrategy`, lines 131-163 of `Display.cpp`.
`hwc` models `HWComposer::getDeviceCompositionChanges(*mId, needsClient,
&changes)`: given the `anyLayersRequireClientComposition()` argument it
returns either an error status or the optional requested changes. The base
`Output::chooseCompositionStrategy` first sets the client-composition-only
defaults; without a bound HWC id, or on a query error, the function
returns with those defaults; otherwise any returned changes are applied
and the composition flags are recomputed from the final per-layer state. -/
def chooseCompositionStrategy {σ : Type} (ops : OutputLayerOps σ)
    (hwc : Bool → Except Int (Option DeviceRequestedChanges))
    (d : DisplayState σ) : DisplayState σ :=
  let d0 := { d with usesClientComposition := true, usesDeviceComposition := false }
  match d0.mId with
  | none => d0
  | some _ =>
      match hwc (anyLayersRequireClientComposition ops d0.layers) with
      | .error _ => d0
      | .ok changes =>
          let d1 :=
            match changes with
            | some c =>
                let da := { d0 with layers := applyChangedTypesToLayers ops c.changedTypes d0.layers }
                let db := applyDisplayRequests c.displayRequests da
                { db with layers := applyLayerRequestsToLayers ops c.layerRequests db.layers }
            | none => d0
          { d1 with
            usesClientComposition := anyLayersRequireClientComposition ops d1.layers
            usesDeviceComposition := !allLayersRequireClientComposition ops d1.layers }

/-- `Display::disconnect`: nothing without a bound id; otherwise
`hwc.disconnectDisplay(*mId)` (the returned id) and reset `mId`. -/
def disconnect {σ : Type} (d : DisplayState σ) : DisplayState σ × Option Nat :=
  match d.mId with
  | none => (d, none)
  | some i => ({ d with mId := none }, some i)

/-- The `*mId` dereference of `std::optional<DisplayId>`: the absent-id
branch models the undefined behavior of dereferencing an empty optional as
an error. -/
def derefDisplayId : Option Nat → Except Unit Nat
  | some i => .ok i
  | none => .error ()

/-- `Display::setColorTransform`: `Output::setColorTransform` stores the
matrix in the output state, then `hwc.setColorTransform(*mId, transform)`
dereferences the id unconditionally (the HWC status is only logged). The
result carries the updated state and the id the call was forwarded to. -/
def setColorTransform {σ : Type} (d : DisplayState σ) (transform : Nat) :
    Except Unit (DisplayState σ × Nat) :=
  let d1 := { d with colorTransformMatrix := transform }
  (derefDisplayId d1.mId).map fun i => (d1, i)

/-- `Display::setColorMode`. `targetDataspace` stands for the value the
display color profile computes (`getTargetDataspace(...)`, an external
collaborator). Unchanged parameters return early; virtual displays are
rejected with a warning; otherwise `Output::setColorMode` stores the four
fields and `hwc.setActiveColorMode(*mId, mode, renderIntent)` dereferences
the id. The result carries the state and the HWC call `(id, mode,
renderIntent)`, if one was made. -/
def setColorMode {σ : Type} (d : DisplayState σ)
    (mode ds renderIntent targetDataspace : Nat) :
    Except Unit (DisplayState σ × Option (Nat × Nat × Nat)) :=
  if mode = d.colorMode ∧ ds = d.dataspace ∧ renderIntent = d.renderIntent ∧
      targetDataspace = d.targetDataspace then
    .ok (d, none)
  else if d.mIsVirtual then
    .ok (d, none)
  else
    let d1 := { d with colorMode := mode, dataspace := ds,
                       renderIntent := renderIntent, targetDataspace := targetDataspace }
    (derefDisplayId d1.mId).map fun i => (d1, some (i, mode, renderIntent))

/-- `Output::FrameFences` as filled in by
`Display::presentAndGetFrameFences`: fences are opaque `Nat`s. -/
structure FrameFences where
  presentFence : Option Nat
  clientTargetAcquireFence : Option Nat
  layerFences : List (Nat × Nat)
deriving DecidableEq, Repr

/-- `Display::presentAndGetFrameFences`: the base
`impl::Output::presentAndGetFrameFences` supplies the client-target
acquire fence (from the render surface, parameter `ctaf`) when client
composition is in use; without a bound id that result is returned
directly, otherwise the HWC (parameters `hwcPresentFence`,
`hwcLayerFence`) supplies the present fence and one release fence per
output-layer with an HWC layer handle. Every `*mId` dereference sits
behind the `if (!mId)` guard, hence the `Except` never takes the error
branch. -/
def presentAndGetFrameFences {σ : Type} (ctaf hwcPresentFence : Nat)
    (hwcLayerFence : Nat → Nat) (d : DisplayState σ) :
    Except Unit FrameFences :=
  let result : FrameFences :=
    { presentFence := none
      clientTargetAcquireFence := if d.usesClientComposition then some ctaf else none
      layerFences := [] }
  match d.mId with
  | none => .ok result
  | some _ =>
      (derefDisplayId d.mId).map fun _ =>
        { result with
          presentFence := some hwcPresentFence
          layerFences := d.layers.filterMap fun l =>
            l.hwcLayer.map fun h => (h, hwcLayerFence h) }

/-! ## Concrete inputs used by the witnesses -/

def cfgC3 : RefreshRateConfigs :=
  { refreshRateSwitchingSupported := true
    refreshRateMap := [(.DEFAULT, ⟨60, 16666667⟩), (.PERFORMANCE, ⟨90, 11111111⟩)]
    currentRefreshRate := (.DEFAULT, ⟨60, 16666667⟩) }

def fC3 : SchedulerFeatures :=
  { contentRefreshRate := 60
    isHDRContent := true
    contentDetection := .On
    idleTimer := .Reset
    touch := .Active
    displayPowerTimer := .Reset
    isDisplayPowerStateNormal := false
    refreshRateType := .PERFORMANCE }

def cfgC7 : RefreshRateConfigs :=
  { refreshRateSwitchingSupported := true
    refreshRateMap := [(.DEFAULT, ⟨60, 16666667⟩), (.PERFORMANCE, ⟨90, 11111111⟩)]
    currentRefreshRate := (.DEFAULT, ⟨60, 16666667⟩) }

def fC7 : SchedulerFeatures :=
  { contentRefreshRate := 60
    isHDRContent := false
    contentDetection := .On
    idleTimer := .Expired
    touch := .Active
    displayPowerTimer := .Expired
    isDisplayPowerStateNormal := true
    refreshRateType := .DEFAULT }

def cfgC5 : RefreshRateConfigs :=
  { refreshRateSwitchingSupported := true
    refreshRateMap := [(.DEFAULT, ⟨60, 16666667⟩), (.PERFORMANCE, ⟨90, 11111111⟩)]
    currentRefreshRate := (.DEFAULT, ⟨60, 16666667⟩) }

def fC5 : SchedulerFeatures :=
  { contentRefreshRate := 60
    isHDRContent := false
    contentDetection := .On
    idleTimer := .Reset
    touch := .Inactive
    displayPowerTimer := .Expired
    isDisplayPowerStateNormal := true
    refreshRateType := .DEFAULT }

def mC8 : ConnectionMap := [(1, ⟨7, 9⟩)]

/-- Concrete layer-state type for the witnesses: the state is just the
`requiresClientComposition` flag; a changed type of `1` (client) sets it. -/

def opsW : OutputLayerOps Bool :=
  { requiresClientComposition := fun b => b
    applyDeviceCompositionTypeChange := fun _ t => t == 1
    prepareForDeviceLayerRequests := fun b => b
    applyDeviceLayerRequest := fun b _ => b }

def hwcW : Bool → Except Int (Option DeviceRequestedChanges) :=
  fun _ => .ok (some ⟨[(5, 1)], 1, [(5, 0)]⟩)

def dW : DisplayState Bool :=
  { mIsVirtual := false
    mId := some 3
    layers := [⟨some 5, false⟩, ⟨none, true⟩]
    usesClientComposition := false
    usesDeviceComposition := true
    flipClientTarget := false
    colorMode := 0
    dataspace := 0
    renderIntent := 0
    targetDataspace := 0
    colorTransformMatrix := 0 }

def opsW2 : OutputLayerOps Bool :=
  { requiresClientComposition := fun b => b
    applyDeviceCompositionTypeChange := fun _ t => t == 1
    prepareForDeviceLayerRequests := fun b => b
    applyDeviceLayerRequest := fun b _ => b }

def hwcW2 : Bool → Except Int (Option DeviceRequestedChanges) :=
  fun _ => .error 5

def dW2 : DisplayState Bool :=
  { mIsVirtual := false
    mId := some 3
    layers := [⟨some 5, false⟩, ⟨none, true⟩]
    usesClientComposition := false
    usesDeviceComposition := true
    flipClientTarget := false
    colorMode := 0
    dataspace := 0
    renderIntent := 0
    targetDataspace := 0
    colorTransformMatrix := 0 }

/-- A non-virtual display with no bound HWC id (as after `disconnect`). -/

def dNoId : DisplayState Unit :=
  { mIsVirtual := false
    mId := none
    layers := []
    usesClientComposition := true
    usesDeviceComposition := false
    flipClientTarget := false
    colorMode := 0
    dataspace := 0
    renderIntent := 0
    targetDataspace := 0
    colorTransformMatrix := 0 }

def dW10 : DisplayState Unit :=
  { mIsVirtual := false
    mId := none
    layers := []
    usesClientComposition := false
    usesDeviceComposition := true
    flipClientTarget := false
    colorMode := 2
    dataspace := 0
    renderIntent := 0
    targetDataspace := 0
    colorTransformMatrix := 0 }

/-! ## Theorems -/

/-- C3: with refresh-rate switching supported, force-HDR-to-default enabled
and HDR content present, `calculateRefreshRateType` returns DEFAULT for every
feature state, regardless of touch, display-power timer, or display power
state. -/
theorem calculateRefreshRateType_forceHDR_dominates
    (cfg : RefreshRateConfigs) (f : SchedulerFeatures)
    (hsw : cfg.refreshRateSwitchingSupported = true)
    (hhdr : f.isHDRContent = true) :
    calculateRefreshRateType cfg true f = .DEFAULT := by
  simp [calculateRefreshRateType, hsw, hhdr]

/-- Witness for C3 at a feature state with touch active, display-power timer
reset and display power not normal. -/
theorem calculateRefreshRateType_forceHDR_dominates_witness :
    cfgC3.refreshRateSwitchingSupported = true ∧ fC3.isHDRContent = true ∧
    fC3.touch = .Active ∧ fC3.displayPowerTimer = .Reset ∧
    fC3.isDisplayPowerStateNormal = false ∧
    calculateRefreshRateType cfgC3 true fC3 = .DEFAULT :=
  ⟨rfl, rfl, rfl, rfl, rfl,
    calculateRefreshRateType_forceHDR_dominates cfgC3 fC3 rfl rfl⟩

/-- C4: with content at 45 fps and the rate map DEFAULT at 60 fps /
PERFORMANCE at 90 fps, and no earlier rule triggering, the closest rate 60
fails the integer-ratio margin (60/45 = 4/3) and the scan accepts 90
(90/45 = 2), so `calculateRefreshRateType` returns PERFORMANCE. -/
theorem calculateRefreshRateType_content45_performance :
    ∀ (forceHDR : Bool),
      calculateRefreshRateType cfg6090 forceHDR features45 = .PERFORMANCE := by
  intro b
  cases b <;>
    norm_num [calculateRefreshRateType, cfg6090, features45, minElementIdx, minElemIdxAux,
      fpsDist, qabs, qround, MARGIN, scanForIntegerRatio, RefreshRateConfigs.getRefreshRateFromType,
      List.lookup] <;> decide

/-- C7: with switching supported, HDR forcing not applying, display power
normal and its timer expired, touch active dominates an expired idle timer:
the result is PERFORMANCE. -/
theorem calculateRefreshRateType_touch_dominates_idle
    (cfg : RefreshRateConfigs) (forceHDR : Bool) (f : SchedulerFeatures)
    (hsw : cfg.refreshRateSwitchingSupported = true)
    (hhdr : forceHDR = false ∨ f.isHDRContent = false)
    (hnorm : f.isDisplayPowerStateNormal = true)
    (hdpt : f.displayPowerTimer = .Expired)
    (htouch : f.touch = .Active)
    (hidle : f.idleTimer = .Expired) :
    calculateRefreshRateType cfg forceHDR f = .PERFORMANCE := by
  rcases hhdr with h | h <;>
    simp [calculateRefreshRateType, hsw, h, hnorm, hdpt, htouch]

/-- Witness for C7 at a concrete feature state with touch active and the
idle timer expired. -/
theorem calculateRefreshRateType_touch_dominates_idle_witness :
    fC7.touch = .Active ∧ fC7.idleTimer = .Expired ∧
    calculateRefreshRateType cfgC7 true fC7 = .PERFORMANCE :=
  ⟨rfl, rfl,
    calculateRefreshRateType_touch_dominates_idle cfgC7 true fC7 rfl (Or.inr rfl) rfl rfl rfl rfl⟩
/-- C5: behaviour of the timer-state transitions. For each timer callback:
when the new state equals the current one, or the recomputed refresh-rate
type equals the current one, no callback fires and the stored type is
unchanged; otherwise the callback fires with the recomputed type, with
event Changed exactly when the timer is touch or display-power and content
detection is on, and event None for every idle-timer transition. -/
theorem timer_transitions (cfg : RefreshRateConfigs) (b : Bool)
    (f : SchedulerFeatures) (s : TimerState) :
    ((f.idleTimer = s ∨
        calculateRefreshRateType cfg b { f with idleTimer := s } = f.refreshRateType) →
      (idleTimerCallback cfg b f s).2 = none ∧
      (idleTimerCallback cfg b f s).1.refreshRateType = f.refreshRateType) ∧
    (f.idleTimer ≠ s →
      calculateRefreshRateType cfg b { f with idleTimer := s } ≠ f.refreshRateType →
      (idleTimerCallback cfg b f s).1.refreshRateType =
        calculateRefreshRateType cfg b { f with idleTimer := s } ∧
      (idleTimerCallback cfg b f s).2 =
        some (calculateRefreshRateType cfg b { f with idleTimer := s }, ConfigEvent.None)) ∧
    ((f.touch = (if s = TimerState.Reset then TouchState.Active else TouchState.Inactive) ∨
        calculateRefreshRateType cfg b
          { f with touch := if s = TimerState.Reset then TouchState.Active else TouchState.Inactive } =
          f.refreshRateType) →
      (touchTimerCallback cfg b f s).2 = none ∧
      (touchTimerCallback cfg b f s).1.refreshRateType = f.refreshRateType) ∧
    (f.touch ≠ (if s = TimerState.Reset then TouchState.Active else TouchState.Inactive) →
      calculateRefreshRateType cfg b
          { f with touch := if s = TimerState.Reset then TouchState.Active else TouchState.Inactive } ≠
        f.refreshRateType →
      (touchTimerCallback cfg b f s).1.refreshRateType =
        calculateRefreshRateType cfg b
          { f with touch := if s = TimerState.Reset then TouchState.Active else TouchState.Inactive } ∧
      (touchTimerCallback cfg b f s).2 =
        some (calculateRefreshRateType cfg b
            { f with touch := if s = TimerState.Reset then TouchState.Active else TouchState.Inactive },
          if f.contentDetection = ContentDetectionState.On then ConfigEvent.Changed
          else ConfigEvent.None)) ∧
    ((f.displayPowerTimer = s ∨
        calculateRefreshRateType cfg b { f with displayPowerTimer := s } = f.refreshRateType) →
      (displayPowerTimerCallback cfg b f s).2 = none ∧
      (displayPowerTimerCallback cfg b f s).1.refreshRateType = f.refreshRateType) ∧
    (f.displayPowerTimer ≠ s →
      calculateRefreshRateType cfg b { f with displayPowerTimer := s } ≠ f.refreshRateType →
      (displayPowerTimerCallback cfg b f s).1.refreshRateType =
        calculateRefreshRateType cfg b { f with displayPowerTimer := s } ∧
      (displayPowerTimerCallback cfg b f s).2 =
        some (calculateRefreshRateType cfg b { f with displayPowerTimer := s },
          if f.contentDetection = ContentDetectionState.On then ConfigEvent.Changed
          else ConfigEvent.None)) := by
  refine ⟨?_, ?_, ?_, ?_, ?_, ?_⟩
  · rintro (h | h)
    · simp [idleTimerCallback, handleTimerStateChanged, h]
    · by_cases h1 : f.idleTimer = s
      · simp [idleTimerCallback, handleTimerStateChanged, h1]
      · simp [idleTimerCallback, handleTimerStateChanged, h1, h]
  · intro h1 h2
    simp [idleTimerCallback, handleTimerStateChanged, h1, Ne.symm h2]
  · rintro (h | h)
    · simp [touchTimerCallback, handleTimerStateChanged, h]
    · by_cases h1 : f.touch = (if s = TimerState.Reset then TouchState.Active else TouchState.Inactive)
      · simp [touchTimerCallback, handleTimerStateChanged, h1]
      · simp [touchTimerCallback, handleTimerStateChanged, h1, h]
  · intro h1 h2
    simp [touchTimerCallback, handleTimerStateChanged, h1, Ne.symm h2]
  · rintro (h | h)
    · simp [displayPowerTimerCallback, handleTimerStateChanged, h]
    · by_cases h1 : f.displayPowerTimer = s
      · simp [displayPowerTimerCallback, handleTimerStateChanged, h1]
      · simp [displayPowerTimerCallback, handleTimerStateChanged, h1, h]
  · intro h1 h2
    simp [displayPowerTimerCallback, handleTimerStateChanged, h1, Ne.symm h2]

/-- Witness for C5: a touch-timer reset from an inactive-touch state with
content detection on recomputes PERFORMANCE and fires the callback with
event Changed. -/
theorem timer_transitions_witness :
    (touchTimerCallback cfgC5 false fC5 .Reset).2 =
      some (RefreshRateType.PERFORMANCE, ConfigEvent.Changed) := by
  have h := ((timer_transitions cfgC5 false fC5 .Reset).2.2.2.1 (by decide) (by decide)).2
  rw [h]
  decide

/-- C6: `resync` is debounced on `kIgnoreDelay` (750 ms) measured from the
previous call: at most `kIgnoreDelay` after the previous call it records
its timestamp but performs no resync; beyond the window it invokes
`resyncToHardwareVsync(false, currentVsyncPeriod)`; hence two calls within
the window of each other, the first one past the window of the call before
it, trigger the resync exactly once. -/
theorem resync_debounced (now last period t2 : Int) :
    (now - last ≤ kIgnoreDelay → resync now last period = (now, none)) ∧
    (kIgnoreDelay < now - last → resync now last period = (now, some ⟨false, period⟩)) ∧
    (kIgnoreDelay < now - last → t2 - now ≤ kIgnoreDelay →
      (resync now last period).2 = some ⟨false, period⟩ ∧
      (resync t2 (resync now last period).1 period).2 = none) := by
  unfold resync
  refine ⟨fun h => ?_, fun h => ?_, fun h h2 => ?_⟩ <;>
    split_ifs <;> simp_all <;> omega

/-- Witness for C6: previous call at 0 ns, first call at 800000001 ns
(past the window), second call 750 ms later (inside the window). -/
theorem resync_debounced_witness :
    (resync 800000001 0 16666667).2 = some ⟨false, 16666667⟩ ∧
    (resync 1550000001 (resync 800000001 0 16666667).1 16666667).2 = none :=
  (resync_debounced 800000001 0 16666667 1550000001).2.2 (by decide) (by decide)

/-- C8: every connection-registry operation first checks the handle
(`RETURN_IF_INVALID_HANDLE`): an unknown handle yields the typed default
(null pointer / nothing) and leaves the connection map unchanged; a known
handle forwards the operation to that handle's event thread, also leaving
the map unchanged. -/
theorem connection_registry_handles (m : ConnectionMap) (h dpy : Nat)
    (cc conn : Bool) (cid off : Int) :
    (List.lookup h m = none →
      createDisplayEventConnection m h cc = (none, m) ∧
      getEventThread m h = (none, m) ∧
      getEventConnection m h = (none, m) ∧
      onHotplugReceived m h dpy conn = (none, m) ∧
      onScreenAcquired m h = (none, m) ∧
      onScreenReleased m h = (none, m) ∧
      onConfigChanged m h dpy cid = (none, m) ∧
      dumpConnection m h = (none, m) ∧
      setPhaseOffset m h off = (none, m)) ∧
    (∀ c : Connection, List.lookup h m = some c →
      createDisplayEventConnection m h cc = (some (.createEventConnection c.thread cc), m) ∧
      getEventThread m h = (some c.thread, m) ∧
      getEventConnection m h = (some c.connection, m) ∧
      onHotplugReceived m h dpy conn = (some (.onHotplugReceived c.thread dpy conn), m) ∧
      onScreenAcquired m h = (some (.onScreenAcquired c.thread), m) ∧
      onScreenReleased m h = (some (.onScreenReleased c.thread), m) ∧
      onConfigChanged m h dpy cid = (some (.onConfigChanged c.thread dpy cid), m) ∧
      dumpConnection m h = (some (.dumpThread c.thread), m) ∧
      setPhaseOffset m h off = (some (.setPhaseOffset c.thread off), m)) := by
  constructor
  · intro hnone
    simp [createDisplayEventConnection, getEventThread, getEventConnection, onHotplugReceived,
      onScreenAcquired, onScreenReleased, onConfigChanged, dumpConnection, setPhaseOffset,
      connCount, connIndex, hnone]
  · intro c hc
    simp [createDisplayEventConnection, getEventThread, getEventConnection, onHotplugReceived,
      onScreenAcquired, onScreenReleased, onConfigChanged, dumpConnection, setPhaseOffset,
      connCount, connIndex, hc]
/-- Witness for C8: in a registry with handle 1 bound to thread 9, handle 2
is rejected with defaults and an unchanged map, while handle 1's operations
are forwarded to thread 9. -/
theorem connection_registry_handles_witness :
    (getEventThread mC8 2 = (none, mC8) ∧ setPhaseOffset mC8 2 5 = (none, mC8)) ∧
    (getEventThread mC8 1 = (some 9, mC8) ∧
      setPhaseOffset mC8 1 5 = (some (.setPhaseOffset 9 5), mC8)) := by
  have ha := (connection_registry_handles mC8 2 3 true false 4 5).1 (by decide)
  have hb := (connection_registry_handles mC8 1 3 true false 4 5).2 ⟨7, 9⟩ (by decide)
  exact ⟨⟨ha.2.1, ha.2.2.2.2.2.2.2.2⟩, ⟨hb.2.1, hb.2.2.2.2.2.2.2.2⟩⟩

theorem stepVsync_invariant (s : HWVsyncState) (op : VsyncOp)
    (h : vsyncInvariant s) : vsyncInvariant (stepVsync s op) := by
  cases op <;>
    simp only [stepVsync, enableHardwareVsync, disableHardwareVsync, resyncToHardwareVsync,
      setVsyncPeriod, vsyncInvariant] at * <;>
    split_ifs <;> simp_all

theorem stepVsync_stays_off (s : HWVsyncState) (op : VsyncOp)
    (hav : s.hwVsyncAvailable = false) (hen : s.primaryHWVsyncEnabled = false)
    (hop : opMakesAvailable op = false) :
    (stepVsync s op).hwVsyncAvailable = false ∧
    (stepVsync s op).primaryHWVsyncEnabled = false := by
  cases op with
  | resyncToHardwareVsync a p =>
      cases a
      · simp [stepVsync, resyncToHardwareVsync, hav, hen]
      · simp [opMakesAvailable] at hop
  | _ =>
      simp_all [stepVsync, enableHardwareVsync, disableHardwareVsync, resyncToHardwareVsync,
        setVsyncPeriod, opMakesAvailable] <;> split_ifs <;> simp_all

/-- C9 (amended): the hardware-vsync state machine keeps the invariant
"vsync enabled implies vsync available" under every operation sequence;
after `disableHardwareVsync(makeUnavailable = true)` no sequence avoiding
`resyncToHardwareVsync(makeAvailable = true, _)` re-enables vsync; and from
that state `resyncToHardwareVsync(makeAvailable = true, period)` with a
positive period re-enables it immediately. -/
theorem hwVsync_invariant_and_disable_blocks (s : HWVsyncState)
    (ops : List VsyncOp) (p : Int) :
    (vsyncInvariant s → vsyncInvariant (runVsync s ops)) ∧
    ((∀ op ∈ ops, opMakesAvailable op = false) →
      (runVsync (stepVsync s (.disableHardwareVsync true)) ops).primaryHWVsyncEnabled = false) ∧
    (0 < p →
      (stepVsync (stepVsync s (.disableHardwareVsync true))
          (.resyncToHardwareVsync true p)).primaryHWVsyncEnabled = true) := by
  refine ⟨?_, ?_, ?_⟩
  · intro h
    induction ops generalizing s with
    | nil => exact h
    | cons op rest ih => exact ih _ (stepVsync_invariant s op h)
  · intro hops
    have hbase : (stepVsync s (.disableHardwareVsync true)).hwVsyncAvailable = false ∧
        (stepVsync s (.disableHardwareVsync true)).primaryHWVsyncEnabled = false := by
      cases hx : s.primaryHWVsyncEnabled <;> simp [stepVsync, disableHardwareVsync, hx]
    generalize hgen : stepVsync s (.disableHardwareVsync true) = s0 at hbase
    clear hgen
    induction ops generalizing s0 with
    | nil => exact hbase.2
    | cons op rest ih =>
        have hstep := stepVsync_stays_off s0 op hbase.1 hbase.2 (hops op (by simp))
        exact ih (fun o ho => hops o (by simp [ho])) _ hstep
  · intro hp
    have hbase : (stepVsync s (.disableHardwareVsync true)).primaryHWVsyncEnabled = false := by
      cases hx : s.primaryHWVsyncEnabled <;> simp [stepVsync, disableHardwareVsync, hx]
    have hple : ¬ p ≤ 0 := by omega
    simp only [stepVsync] at hbase
    simp [stepVsync, resyncToHardwareVsync, setVsyncPeriod, hbase, hple]

/-- Counterexample for C9 as stated: after
`disableHardwareVsync(makeUnavailable = true)`, the sequence
`resyncToHardwareVsync(makeAvailable = true, period = 0)` followed by
`enableHardwareVsync` re-enables hardware vsync although
`resyncToHardwareVsync` is never called with a positive period. -/
theorem hwVsync_reenabled_without_positive_period :
    ([VsyncOp.resyncToHardwareVsync true 0, VsyncOp.enableHardwareVsync].all
        (fun op => !opIsPositiveMakeAvailableResync op)) = true ∧
    (runVsync (stepVsync ⟨true, true, 0, 0⟩ (.disableHardwareVsync true))
        [VsyncOp.resyncToHardwareVsync true 0, VsyncOp.enableHardwareVsync]).primaryHWVsyncEnabled
      = true := by
  constructor <;> rfl

/-- Witness for the amended C9 at a concrete state and operation
sequence. -/
theorem hwVsync_invariant_and_disable_blocks_witness :
    vsyncInvariant (runVsync ⟨true, true, 0, 0⟩
      [VsyncOp.addPresentFence true, VsyncOp.addResyncSample false]) ∧
    (runVsync (stepVsync ⟨true, true, 0, 0⟩ (.disableHardwareVsync true))
      [VsyncOp.enableHardwareVsync, VsyncOp.addPresentFence true,
        VsyncOp.resyncToHardwareVsync false 16666667]).primaryHWVsyncEnabled = false ∧
    (stepVsync (stepVsync ⟨true, true, 0, 0⟩ (.disableHardwareVsync true))
      (.resyncToHardwareVsync true 16666667)).primaryHWVsyncEnabled = true := by
  have h := hwVsync_invariant_and_disable_blocks ⟨true, true, 0, 0⟩
    [VsyncOp.enableHardwareVsync, VsyncOp.addPresentFence true,
      VsyncOp.resyncToHardwareVsync false 16666667] 16666667
  have h1 := hwVsync_invariant_and_disable_blocks (⟨true, true, 0, 0⟩ : HWVsyncState)
    [VsyncOp.addPresentFence true, VsyncOp.addResyncSample false] 16666667
  exact ⟨h1.1 (by intro hx; rfl), h.2.1 (by decide), h.2.2 (by decide)⟩

/-- C1: with a bound HWC id and a successful device-composition-changes
query, the output state after `chooseCompositionStrategy` has
`usesClientComposition` equal to "some output-layer requires client
composition" and `usesDeviceComposition` equal to "not every output-layer
requires client composition", both over the final per-layer state (the
one after the returned changed types and layer requests were applied). -/
theorem chooseCompositionStrategy_final_flags {σ : Type} (ops : OutputLayerOps σ)
    (hwc : Bool → Except Int (Option DeviceRequestedChanges)) (d : DisplayState σ)
    (i : Nat) (changes : Option DeviceRequestedChanges)
    (hid : d.mId = some i)
    (hok : hwc (anyLayersRequireClientComposition ops d.layers) = .ok changes) :
    (chooseCompositionStrategy ops hwc d).usesClientComposition =
      anyLayersRequireClientComposition ops (chooseCompositionStrategy ops hwc d).layers ∧
    (chooseCompositionStrategy ops hwc d).usesDeviceComposition =
      !allLayersRequireClientComposition ops (chooseCompositionStrategy ops hwc d).layers ∧
    (chooseCompositionStrategy ops hwc d).layers =
      match changes with
      | some c => applyLayerRequestsToLayers ops c.layerRequests
          (applyChangedTypesToLayers ops c.changedTypes d.layers)
      | none => d.layers := by
  unfold chooseCompositionStrategy
  simp only [hid]
  simp only [applyDisplayRequests]
  simp [hok]
  cases changes <;> simp

/-- C2: without a bound HWC id, or when the device-composition-changes
query fails, `chooseCompositionStrategy` leaves the output state at the
base defaults (client composition only) and changes nothing else: no layer
flags, no flip-client-target. -/
theorem chooseCompositionStrategy_failure_defaults {σ : Type}
    (ops : OutputLayerOps σ)
    (hwc : Bool → Except Int (Option DeviceRequestedChanges)) (d : DisplayState σ)
    (hfail : d.mId = none ∨
      ∃ e, hwc (anyLayersRequireClientComposition ops d.layers) = .error e) :
    chooseCompositionStrategy ops hwc d =
      { d with usesClientComposition := true, usesDeviceComposition := false } := by
  unfold chooseCompositionStrategy
  rcases hfail with h | ⟨e, h⟩
  · simp [h]
  · cases hm : d.mId <;> simp [hm, h]

/-- Witness for C1 at a concrete display whose HWC query changes layer 5 to
client composition. -/
theorem chooseCompositionStrategy_final_flags_witness :
    (chooseCompositionStrategy opsW hwcW dW).usesClientComposition =
      anyLayersRequireClientComposition opsW (chooseCompositionStrategy opsW hwcW dW).layers ∧
    (chooseCompositionStrategy opsW hwcW dW).usesDeviceComposition =
      !allLayersRequireClientComposition opsW (chooseCompositionStrategy opsW hwcW dW).layers :=
  ⟨(chooseCompositionStrategy_final_flags opsW hwcW dW 3 (some ⟨[(5, 1)], 1, [(5, 0)]⟩)
      rfl rfl).1,
    (chooseCompositionStrategy_final_flags opsW hwcW dW 3 (some ⟨[(5, 1)], 1, [(5, 0)]⟩)
      rfl rfl).2.1⟩
/-- Witness for C2 at a concrete display whose HWC query fails with status
5. -/
theorem chooseCompositionStrategy_failure_defaults_witness :
    chooseCompositionStrategy opsW2 hwcW2 dW2 =
      { dW2 with usesClientComposition := true, usesDeviceComposition := false } :=
  chooseCompositionStrategy_failure_defaults opsW2 hwcW2 dW2 (Or.inr ⟨5, rfl⟩)

/-- Counterexample for C10 as stated: `setColorMode` does not guard on id
presence. On a non-virtual display without a bound id, a color mode that
differs from the current state drives `setColorMode` into the same absent-id
dereference (`*mId`) as `setColorTransform` — only the virtual-display flag
and parameter equality are checked first. -/
theorem setColorMode_unguarded_deref :
    dNoId.mIsVirtual = false ∧ dNoId.mId = none ∧
    setColorMode dNoId 1 0 0 0 = .error () :=
  ⟨rfl, rfl, rfl⟩

/-- C10 (amended): `setColorTransform` forwards to the HWC through an
unchecked `*mId` dereference, so it is well-defined exactly when the id is
present — in particular it hits the absent-id branch after `disconnect` —
while `presentAndGetFrameFences` guards on the id and never errors;
`setColorMode` guards only against virtual displays and likewise
dereferences the id unchecked once the new color parameters differ. -/
theorem display_optional_id_guards {σ : Type} (d : DisplayState σ)
    (t m ds ri tds ctaf pfc : Nat) (lf : Nat → Nat) :
    ((∃ r, setColorTransform d t = .ok r) ↔ d.mId.isSome = true) ∧
    (∃ r, presentAndGetFrameFences ctaf pfc lf d = .ok r) ∧
    ((disconnect d).1.mId = none) ∧
    (setColorTransform (disconnect d).1 t = .error ()) ∧
    (d.mId = none → d.mIsVirtual = false →
      ¬(m = d.colorMode ∧ ds = d.dataspace ∧ ri = d.renderIntent ∧ tds = d.targetDataspace) →
      setColorMode d m ds ri tds = .error ()) := by
  refine ⟨?_, ?_, ?_, ?_, ?_⟩
  · cases hm : d.mId <;> simp [setColorTransform, derefDisplayId, hm, Except.map]
  · cases hm : d.mId <;> simp [presentAndGetFrameFences, derefDisplayId, hm, Except.map]
  · cases hm : d.mId <;> simp [disconnect, hm]
  · cases hm : d.mId <;> simp [disconnect, setColorTransform, derefDisplayId, hm, Except.map]
  · intro hm hv hne
    simp [setColorMode, hm, hv, hne, derefDisplayId, Except.map]
/-- Witness for the amended C10 at a concrete non-virtual display without a
bound id. -/
theorem display_optional_id_guards_witness :
    (¬∃ r, setColorTransform dW10 7 = .ok r) ∧
    (∃ r, presentAndGetFrameFences 1 2 (fun h => h) dW10 = .ok r) ∧
    setColorMode dW10 3 0 0 0 = .error () := by
  have h := display_optional_id_guards dW10 7 3 0 0 0 1 2 (fun h => h)
  refine ⟨fun hx => ?_, h.2.1, h.2.2.2.2 rfl rfl (by decide)⟩
  have := h.1.mp hx
  simp [dW10] at this
